import Mathlib

/-!
Verification of the repository effective-cpp-3rd-study.

Shallow embedding of the executable artifacts of the repository:

* src/src/ch01/item01.cpp — the single example program (Item 1:
  "View C++ as a federation of languages").  Its main function prints a
  fixed sequence of console lines and returns 0.  Console output is
  modelled as a `List String` of lines and the exit status as a `Nat`.
* src/Makefile — the build wrapper with targets run, build, list and
  clean.  A recipe is modelled as a list of shell `Action` values
  executed in order, stopping at the first failing command.  The model
  separates two statuses: the status of the first failing recipe
  command (0 when all succeed), which is what the shell reports to
  make, and the exit status of the make process itself, which by the
  documented behaviour of GNU make is 0 on success and 2 as soon as
  any recipe command fails (`makeExit`).  The external compiler and
  the behaviour of the compiled binary are parameters (an `Env`); the
  effect on the file system is a transition on `FS`.
-/

namespace Item01

/-- Array `int arr[] = {1, 2, 3, 4, 5};` from `c_style_example`. -/
def arr : List Int := [1, 2, 3, 4, 5]

/-- The C-style loop `for (int i = 0; i < 5; ++i) sum += arr[i];`:
`sumTo a n` is the value of `sum` after the iterations `i = 0 .. n-1`. -/
def sumTo (a : List Int) : Nat → Int
  | 0 => 0
  | n + 1 => sumTo a n + a.getD n 0

/-- Fuel-indexed form of the same loop, exactly as the C code runs it:
state `(i, sum)`, guard `i < 5`, body `sum += arr[i]; ++i`.  `none` means
the fuel ran out before the exit test of the loop failed. -/
def cLoop (a : List Int) : Nat → Nat → Int → Option Int
  | 0, _, _ => none
  | fuel + 1, i, sum =>
    if i < 5 then cLoop a fuel (i + 1) (sum + a.getD i 0) else some sum

/-- Function `c_style_example`: prints one line with the computed sum. -/
def c_style_example : List String :=
  ["C style sum: " ++ toString (sumTo arr 5)]

/-- The `Shape` hierarchy: the program only ever instantiates `Circle`. -/
inductive ShapeT where
  | circle
deriving DecidableEq

/-- Virtual dispatch of `draw()` on the dynamic type. -/
def draw : ShapeT → List String
  | ShapeT.circle => ["Drawing a circle"]

/-- The template function `T add(T a, T b) { return a + b; }`. -/
def add {T : Type} [Add T] (a b : T) : T := a + b

/-- Boolean `≤` on `Int`, the comparison `std::sort` applies to `int`. -/
def intLe (a b : Int) : Bool := decide (a ≤ b)

/-- Insert into a sorted list, keeping it sorted (model of sorting). -/
def insertOrd {α : Type} (le : α → α → Bool) (x : α) : List α → List α
  | [] => [x]
  | y :: ys => if le x y then x :: y :: ys else y :: insertOrd le x ys

/-- Comparison sort used to model `std::sort` and `sort(1)`:
`std::sort` leaves the range sorted by the comparison; the algorithm is
unspecified, so any comparison sort is a faithful model. -/
def sortBy {α : Type} (le : α → α → Bool) : List α → List α
  | [] => []
  | x :: xs => insertOrd le x (sortBy le xs)

/-- Vector `std::vector<int> v = {5, 2, 8, 1, 9};` from `stl_example`. -/
def v0 : List Int := [5, 2, 8, 1, 9]

/-- Fuel-indexed range-for over the sorted vector, printing each
element followed by a space; returns the accumulated text, or `none` if
the fuel ran out before the iterator reached the end. -/
def stlPrintLoop : Nat → List Int → String → Option String
  | 0, _ :: _, _ => none
  | _, [], acc => some acc
  | fuel + 1, x :: xs, acc => stlPrintLoop fuel xs (acc ++ toString x ++ " ")

/-- Function `stl_example`: sorts `v` and prints the elements. -/
def stl_example : List String :=
  let s := sortBy intLe v0
  ["STL sorted: " ++ String.join (s.map (fun x => toString x ++ " "))]

/-- C++ `double` values occurring in the program are dyadic rationals
(3.5, 4.5 and their exact sum 8), so `ℚ` models them without rounding.
The stream output prints an integral value without a decimal point; the
non-integral branch is never reached by this program. -/
def showDouble (q : ℚ) : String :=
  if q.den = 1 then toString q.num else toString q

/-- Entry point `main` of item01.cpp: the full sequence of printed
lines paired with the return value. -/
def item01_main : List String × Nat :=
  (["=== Item 1: C++ as a federation of languages ===", ""]
    ++ ["[1] C style:"] ++ c_style_example ++ [""]
    ++ ["[2] Object-Oriented C++:"] ++ draw ShapeT.circle ++ [""]
    ++ ["[3] Template C++:",
        "add(3, 4) = " ++ toString (add (3 : Int) 4),
        "add(3.5, 4.5) = " ++ showDouble (add (3.5 : ℚ) (4.5 : ℚ)),
        ""]
    ++ ["[4] STL:"] ++ stl_example, 0)

/-- An execution of the program given a stdin stream: `main` contains
no read from any input, so the stream is never consumed. -/
def item01_exec (_stdin : List String) : List String × Nat := item01_main

end Item01

namespace Mk

/-- Flag set `CXXFLAGS = -std=c++17 -Wall -Wextra -g`. -/
def CXXFLAGS : List String := ["-std=c++17", "-Wall", "-Wextra", "-g"]

/-- Build directory variable `BUILD_DIR = build`. -/
def BUILD_DIR : String := "build"

/-- Both compiling recipes name the same output: `$(BUILD_DIR)/a.out`. -/
def binaryPath : String := BUILD_DIR ++ "/a.out"

/-- The environment outside the Makefile: the exit status of the
compiler on a given source file, and the console output and exit
status of the binary compiled from that file. -/
structure Env where
  compileStatus : String → Nat
  runBinary : String → List String × Nat

/-- One shell command of a recipe line. -/
inductive Action where
  | mkdirBuild : Action
  | compile : List String → String → String → Action
  | echo : String → Action
  | execBinary : String → Action
  | exitCmd : Nat → Action
deriving DecidableEq

/-- Target `run` (`make run FILE=...`): trace of executed commands,
paired with the status of the first failing recipe command (0 when all
commands succeed).  `none` models an unset FILE (the `ifndef FILE`
branch, whose `exit 1` command fails with status 1).  Recipe lines run
in order and stop at the first failing command.  This second component
is the shell-level status that make observes, not the exit status of
the make process itself: see `makeExit` and `makeRunExit` for the
latter. -/
def makeRun (env : Env) (file : Option String) : List Action × Nat :=
  match file with
  | none =>
    ([Action.echo "Error: FILE is not specified",
      Action.echo "Usage: make run FILE=src/ch01/item01.cpp",
      Action.exitCmd 1], 1)
  | some f =>
    let s := env.compileStatus f
    if s = 0 then
      ([Action.mkdirBuild,
        Action.compile CXXFLAGS binaryPath f,
        Action.echo ("--- Running " ++ f ++ " ---"),
        Action.execBinary binaryPath], (env.runBinary f).2)
    else
      ([Action.mkdirBuild, Action.compile CXXFLAGS binaryPath f], s)

/-- Target `build` (`make build FILE=...`): the same compile step, then
only a message — no execution.  As with `makeRun`, the second
component is the status of the first failing recipe command as
observed by make; `makeBuildExit` gives the exit status of the make
process itself. -/
def makeBuild (env : Env) (file : Option String) : List Action × Nat :=
  match file with
  | none =>
    ([Action.echo "Error: FILE is not specified",
      Action.echo "Usage: make build FILE=src/ch01/item01.cpp",
      Action.exitCmd 1], 1)
  | some f =>
    let s := env.compileStatus f
    if s = 0 then
      ([Action.mkdirBuild,
        Action.compile CXXFLAGS binaryPath f,
        Action.echo ("Built: " ++ binaryPath)], 0)
    else
      ([Action.mkdirBuild, Action.compile CXXFLAGS binaryPath f], s)

/-- Documented exit behaviour of the GNU make process itself: it exits
0 when every recipe command succeeded and exits 2 as soon as any
recipe command failed (printing an Error line), whatever the status of
the failing command was. -/
def makeExit (recipeStatus : Nat) : Nat :=
  if recipeStatus = 0 then 0 else 2

/-- Observable exit status of the command `make run FILE=...`. -/
def makeRunExit (env : Env) (file : Option String) : Nat :=
  makeExit (makeRun env file).2

/-- Observable exit status of the command `make build FILE=...`. -/
def makeBuildExit (env : Env) (file : Option String) : Nat :=
  makeExit (makeBuild env file).2

/-- Test whether the action is a compiler invocation. -/
def isCompile : Action → Bool
  | Action.compile _ _ _ => true
  | _ => false

/-- Test whether the action executes a built binary. -/
def isExec : Action → Bool
  | Action.execBinary _ => true
  | _ => false

/-- File-system state the Makefile touches: whether `build/` exists,
which source the binary at `build/a.out` was last compiled from
(`none`: no binary), and the source files under `src/`. -/
structure FS where
  buildDirExists : Bool
  binary : Option String
  srcFiles : List String

/-- Effect of the shared compile steps (`mkdir -p build` and the
compiler call writing `build/a.out`) on the file system: on success the
binary is replaced by one compiled from `f`; on failure the compiler
writes no output, so the previous binary is untouched. -/
def applyCompile (env : Env) (f : String) (s : FS) : FS :=
  if env.compileStatus f = 0 then
    { s with buildDirExists := true, binary := some f }
  else
    { s with buildDirExists := true }

/-- File-system effect of `make run FILE=...` (running the binary does
not change the file system; unset FILE stops before any command). -/
def makeRunState (env : Env) (file : Option String) (s : FS) : FS :=
  match file with
  | none => s
  | some f => applyCompile env f s

/-- File-system effect of `make build FILE=...`. -/
def makeBuildState (env : Env) (file : Option String) (s : FS) : FS :=
  match file with
  | none => s
  | some f => applyCompile env f s

/-- File-system effect of `make clean`, that is of `rm -rf build`. -/
def makeCleanState (s : FS) : FS :=
  { s with buildDirExists := false, binary := none }

/-- Pattern test of `find src -name "*.cpp"`: keeps the paths whose
name ends in `.cpp`; the suffix test is spelled out on the character
list so that it computes by kernel reduction. -/
def endsWithCpp (p : String) : Bool := ".cpp".data.isSuffixOf p.data

/-- Boolean byte-lexicographic `≤` on strings, the order used by
`sort(1)`: `a ≤ b` iff not `b < a`. -/
def strLe (a b : String) : Bool := ! decide (b < a)

/-- Exit status of the pipeline
`find src -name "*.cpp" 2>/dev/null | sort`: without pipefail, the
status of a pipeline is the status of its last command, and `sort`
exits 0 on any input, including empty input. -/
def findSortStatus : Nat := 0

/-- Target `list` (`make list`): header line, then the `.cpp` files
found under `src` sorted; the fallback `|| echo "  (no files yet)"`
runs only when the pipeline fails.  `srcFiles` is the set of file
paths under the `src` directory. -/
def makeList (srcFiles : List String) : List String × Nat :=
  let found := Item01.sortBy strLe (srcFiles.filter (fun p => endsWithCpp p))
  if findSortStatus = 0 then
    ("Source files:" :: found, 0)
  else
    ("Source files:" :: found ++ ["  (no files yet)"], 0)

/-- Console output and status of `make clean`. -/
def makeClean : List String × Nat :=
  (["rm -rf " ++ BUILD_DIR, "Cleaned build directory"], 0)

end Mk

/-- Adjacent-pairs sortedness check for the comparison `le`. -/
def sortedBy {α : Type} (le : α → α → Bool) : List α → Bool
  | [] => true
  | [_] => true
  | a :: b :: t => le a b && sortedBy le (b :: t)

/-- Console output produced by a recipe trace for `make run FILE=f`:
an echo prints its line, and executing the freshly compiled binary
streams the stdout of that binary. -/
def consoleOf (env : Mk.Env) (f : String) : List Mk.Action → List String
  | [] => []
  | Mk.Action.echo s :: tr => s :: consoleOf env f tr
  | Mk.Action.execBinary _ :: tr => (env.runBinary f).1 ++ consoleOf env f tr
  | _ :: tr => consoleOf env f tr

/-- A concrete environment whose compiler succeeds on every file. -/
def envOK : Mk.Env :=
  { compileStatus := fun _ => 0, runBinary := fun _ => (["out"], 0) }

/-- A concrete environment whose compiler fails with status 1. -/
def envBad : Mk.Env :=
  { compileStatus := fun _ => 1, runBinary := fun _ => ([], 0) }

/-- A concrete environment whose compiler succeeds and whose compiled
binary exits with status 5. -/
def envExit5 : Mk.Env :=
  { compileStatus := fun _ => 0, runBinary := fun _ => ([], 5) }

theorem mem_insertOrd {α : Type} (le : α → α → Bool) (x a : α) (l : List α) :
    a ∈ Item01.insertOrd le x l ↔ a = x ∨ a ∈ l := by
  induction l with
  | nil => simp [Item01.insertOrd]
  | cons y ys ih =>
    simp only [Item01.insertOrd]
    split
    · simp [List.mem_cons]
    · simp [List.mem_cons, ih]
      tauto

theorem mem_sortBy {α : Type} (le : α → α → Bool) (a : α) (l : List α) :
    a ∈ Item01.sortBy le l ↔ a ∈ l := by
  induction l with
  | nil => simp [Item01.sortBy]
  | cons x xs ih =>
    simp [Item01.sortBy, mem_insertOrd, ih, List.mem_cons]

theorem insertOrd_sorted {α : Type} (le : α → α → Bool)
    (htot : ∀ a b, le a b = true ∨ le b a = true) (x : α) (l : List α)
    (hl : sortedBy le l = true) : sortedBy le (Item01.insertOrd le x l) = true := by
  induction l with
  | nil => simp [Item01.insertOrd, sortedBy]
  | cons y ys ih =>
    simp only [Item01.insertOrd]
    by_cases h : le x y = true
    · simp [h, sortedBy, hl]
    · have hyx : le y x = true := (htot x y).resolve_left h
      rw [if_neg h]
      cases ys with
      | nil => simp [Item01.insertOrd, sortedBy, hyx]
      | cons z zs =>
        have hyz : le y z = true := by
          simp [sortedBy] at hl; exact hl.1
        have hs : sortedBy le (z :: zs) = true := by
          simp [sortedBy] at hl ⊢; exact hl.2
        have ih' := ih hs
        simp only [Item01.insertOrd] at ih' ⊢
        by_cases h2 : le x z = true
        · rw [if_pos h2] at ih' ⊢
          simp [sortedBy, hyx, h2, hs]
        · rw [if_neg h2] at ih' ⊢
          simp [sortedBy, hyz]
          exact ih'

theorem sortBy_sorted {α : Type} (le : α → α → Bool)
    (htot : ∀ a b, le a b = true ∨ le b a = true) (l : List α) :
    sortedBy le (Item01.sortBy le l) = true := by
  induction l with
  | nil => simp [Item01.sortBy, sortedBy]
  | cons x xs ih => exact insertOrd_sorted le htot x _ ih

theorem strLe_total (a b : String) : Mk.strLe a b = true ∨ Mk.strLe b a = true := by
  by_cases h : b < a
  · right
    have h2 : ¬ a < b := fun h2 => lt_asymm h2 h
    simp [Mk.strLe, h2]
  · left
    simp [Mk.strLe, h]

/-- C1: running the item01 example program produces exactly the
documented console lines, in order — the header, then
"C style sum: 15" (15 being the sum of the array {1,2,3,4,5}),
"Drawing a circle", "add(3, 4) = 7", "add(3.5, 4.5) = 8" and
"STL sorted: 1 2 5 8 9 " — and the program returns exit status 0. -/
theorem item01_output_correct :
    Item01.item01_main =
      (["=== Item 1: C++ as a federation of languages ===", "",
        "[1] C style:", "C style sum: 15", "",
        "[2] Object-Oriented C++:", "Drawing a circle", "",
        "[3] Template C++:", "add(3, 4) = 7", "add(3.5, 4.5) = 8", "",
        "[4] STL:", "STL sorted: 1 2 5 8 9 "], 0) ∧
    Item01.sumTo Item01.arr 5 = 15 := by
  have h8 : Item01.add (3.5 : ℚ) (4.5 : ℚ) = 8 := by
    norm_num [Item01.add]
  constructor
  · unfold Item01.item01_main
    rw [h8]
    decide
  · decide

/-- C6: the item01 example takes no external input and does not vary
across runs: for any two stdin streams, the executions produce
identical console output and exit status, and the exit status is 0. -/
theorem item01_deterministic (s1 s2 : List String) :
    Item01.item01_exec s1 = Item01.item01_exec s2 ∧
    (Item01.item01_exec s1).2 = 0 :=
  ⟨rfl, rfl⟩

/-- C7: the item01 example terminates on every execution: each of its
loops runs over a fixed finite array or vector, so the fuel-indexed
forms of the two loops complete within finite fuel, and `main` returns
with exit status 0. -/
theorem item01_terminates :
    (∃ fuel, Item01.cLoop Item01.arr fuel 0 0 =
      some (Item01.sumTo Item01.arr 5)) ∧
    (∃ fuel, Item01.stlPrintLoop fuel (Item01.sortBy Item01.intLe Item01.v0) "" =
      some "1 2 5 8 9 ") ∧
    Item01.item01_main.2 = 0 :=
  ⟨⟨6, by decide⟩, ⟨5, by decide⟩, rfl⟩

/-- C2: with FILE set to any path f, `make run FILE=f` first compiles
f with the fixed flag set into `build/a.out`; when compilation
succeeds, it immediately executes that binary, streaming the stdout of
the binary to the console, and when compilation fails the binary is
never executed. -/
theorem makeRun_compile_precedes_exec (env : Mk.Env) (f : String) :
    (env.compileStatus f = 0 →
      (Mk.makeRun env (some f)).1 =
        [Mk.Action.mkdirBuild,
         Mk.Action.compile Mk.CXXFLAGS Mk.binaryPath f,
         Mk.Action.echo ("--- Running " ++ f ++ " ---"),
         Mk.Action.execBinary Mk.binaryPath] ∧
      (Mk.makeRun env (some f)).2 = (env.runBinary f).2 ∧
      consoleOf env f (Mk.makeRun env (some f)).1 =
        ("--- Running " ++ f ++ " ---") :: (env.runBinary f).1) ∧
    (env.compileStatus f ≠ 0 →
      (Mk.makeRun env (some f)).1 =
        [Mk.Action.mkdirBuild, Mk.Action.compile Mk.CXXFLAGS Mk.binaryPath f] ∧
      ((Mk.makeRun env (some f)).1.all fun a => ! Mk.isExec a) = true) := by
  constructor
  · intro h
    have hr : Mk.makeRun env (some f) =
        ([Mk.Action.mkdirBuild,
          Mk.Action.compile Mk.CXXFLAGS Mk.binaryPath f,
          Mk.Action.echo ("--- Running " ++ f ++ " ---"),
          Mk.Action.execBinary Mk.binaryPath], (env.runBinary f).2) := by
      simp [Mk.makeRun, h]
    rw [hr]
    refine ⟨rfl, rfl, ?_⟩
    simp [consoleOf]
  · intro h
    have hr : Mk.makeRun env (some f) =
        ([Mk.Action.mkdirBuild, Mk.Action.compile Mk.CXXFLAGS Mk.binaryPath f],
          env.compileStatus f) := by
      simp [Mk.makeRun, h]
    rw [hr]
    exact ⟨rfl, rfl⟩

/-- C2 witness: a concrete environment in which compilation succeeds,
evaluated at a concrete file path. -/
theorem makeRun_compile_precedes_exec_witness :
    (Mk.makeRun envOK (some "src/ch01/item01.cpp")).1 =
      [Mk.Action.mkdirBuild,
       Mk.Action.compile Mk.CXXFLAGS Mk.binaryPath "src/ch01/item01.cpp",
       Mk.Action.echo ("--- Running " ++ "src/ch01/item01.cpp" ++ " ---"),
       Mk.Action.execBinary Mk.binaryPath] ∧
    (Mk.makeRun envOK (some "src/ch01/item01.cpp")).2 =
      (envOK.runBinary "src/ch01/item01.cpp").2 ∧
    consoleOf envOK "src/ch01/item01.cpp"
        (Mk.makeRun envOK (some "src/ch01/item01.cpp")).1 =
      ("--- Running " ++ "src/ch01/item01.cpp" ++ " ---") ::
        (envOK.runBinary "src/ch01/item01.cpp").1 :=
  (makeRun_compile_precedes_exec envOK "src/ch01/item01.cpp").1 rfl

/-- C3: with FILE unset, both `make run` and `make build` print the
usage message and exit with the non-zero status 1, the executed trace
contains no compiler invocation and no binary execution, and the file
system is left unchanged. -/
theorem make_file_unset_guard (env : Mk.Env) (s : Mk.FS) :
    Mk.makeRun env none =
      ([Mk.Action.echo "Error: FILE is not specified",
        Mk.Action.echo "Usage: make run FILE=src/ch01/item01.cpp",
        Mk.Action.exitCmd 1], 1) ∧
    Mk.makeBuild env none =
      ([Mk.Action.echo "Error: FILE is not specified",
        Mk.Action.echo "Usage: make build FILE=src/ch01/item01.cpp",
        Mk.Action.exitCmd 1], 1) ∧
    0 < (Mk.makeRun env none).2 ∧ 0 < (Mk.makeBuild env none).2 ∧
    ((Mk.makeRun env none).1.all
      fun a => ! Mk.isCompile a && ! Mk.isExec a) = true ∧
    ((Mk.makeBuild env none).1.all
      fun a => ! Mk.isCompile a && ! Mk.isExec a) = true ∧
    Mk.makeRunState env none s = s ∧ Mk.makeBuildState env none s = s :=
  ⟨rfl, rfl, Nat.one_pos, Nat.one_pos, rfl, rfl, rfl, rfl⟩

/-- C4 counterexample: the claim says the exit status of the wrapper
equals exactly the status of the underlying compiler or binary, but
GNU make exits 2 whenever a recipe command fails.  Concretely: with a
compiler failing with status 1, `make build` exits 2, not 1; and with
a successfully compiled binary exiting 5, `make run` exits 2, not 5. -/
theorem make_exit_status_counterexample :
    Mk.makeBuildExit envBad (some "src/broken.cpp") = 2 ∧
    envBad.compileStatus "src/broken.cpp" = 1 ∧
    (Mk.makeBuildExit envBad (some "src/broken.cpp")
        == envBad.compileStatus "src/broken.cpp") = false ∧
    Mk.makeRunExit envExit5 (some "src/ch01/item01.cpp") = 2 ∧
    (envExit5.runBinary "src/ch01/item01.cpp").2 = 5 ∧
    (Mk.makeRunExit envExit5 (some "src/ch01/item01.cpp")
        == (envExit5.runBinary "src/ch01/item01.cpp").2) = false :=
  ⟨rfl, rfl, rfl, rfl, rfl, rfl⟩

/-- C4 amended: for every set FILE value f, the exit status of
`make build FILE=f` is 0 when the underlying compiler succeeds and 2
when it fails, and the exit status of `make run FILE=f` is 0 when the
compiler and the resulting binary both succeed and 2 as soon as either
fails: make maps every failing recipe command to its own exit status
2, so the wrapper status equals the status of the underlying compiler
or binary only when that status is 0 (or happens to be exactly 2). -/
theorem make_exit_status_amended (env : Mk.Env) (f : String) :
    Mk.makeBuildExit env (some f) =
      (if env.compileStatus f = 0 then 0 else 2) ∧
    Mk.makeRunExit env (some f) =
      (if env.compileStatus f = 0 then
        (if (env.runBinary f).2 = 0 then 0 else 2) else 2) := by
  constructor
  · unfold Mk.makeBuildExit Mk.makeExit Mk.makeBuild
    by_cases h : env.compileStatus f = 0 <;> simp [h]
  · unfold Mk.makeRunExit Mk.makeExit Mk.makeRun
    by_cases h : env.compileStatus f = 0 <;> simp [h]

/-- C5: `make build FILE=f` compiles only: its trace never contains an
execution of the built binary, and on success it consists of the
directory creation, the compiler call and the "Built:" message. -/
theorem makeBuild_compiles_only (env : Mk.Env) (f : String) :
    ((Mk.makeBuild env (some f)).1.all fun a => ! Mk.isExec a) = true ∧
    (env.compileStatus f = 0 →
      (Mk.makeBuild env (some f)).1 =
        [Mk.Action.mkdirBuild,
         Mk.Action.compile Mk.CXXFLAGS Mk.binaryPath f,
         Mk.Action.echo ("Built: " ++ Mk.binaryPath)] ∧
      Mk.Action.echo ("Built: " ++ Mk.binaryPath) ∈
        (Mk.makeBuild env (some f)).1) := by
  constructor
  · by_cases h : env.compileStatus f = 0
    · have hr : Mk.makeBuild env (some f) =
          ([Mk.Action.mkdirBuild,
            Mk.Action.compile Mk.CXXFLAGS Mk.binaryPath f,
            Mk.Action.echo ("Built: " ++ Mk.binaryPath)], 0) := by
        simp [Mk.makeBuild, h]
      rw [hr]
      rfl
    · have hr : Mk.makeBuild env (some f) =
          ([Mk.Action.mkdirBuild, Mk.Action.compile Mk.CXXFLAGS Mk.binaryPath f],
            env.compileStatus f) := by
        simp [Mk.makeBuild, h]
      rw [hr]
      rfl
  · intro h
    simp [Mk.makeBuild, h]

/-- C5 witness: a concrete environment in which compilation succeeds,
evaluated at a concrete file path. -/
theorem makeBuild_compiles_only_witness :
    (Mk.makeBuild envOK (some "src/ch01/item01.cpp")).1 =
      [Mk.Action.mkdirBuild,
       Mk.Action.compile Mk.CXXFLAGS Mk.binaryPath "src/ch01/item01.cpp",
       Mk.Action.echo ("Built: " ++ Mk.binaryPath)] ∧
    Mk.Action.echo ("Built: " ++ Mk.binaryPath) ∈
      (Mk.makeBuild envOK (some "src/ch01/item01.cpp")).1 :=
  (makeBuild_compiles_only envOK "src/ch01/item01.cpp").2 rfl

/-- C9: `make clean` removes all build output: afterwards the build
directory — the only place `make run` or `make build` ever writes the
compiled binary — no longer exists and holds no binary, while the
source files under `src` are not modified or removed by clean, run or
build. -/
theorem makeClean_removes_build_output (env : Mk.Env) (f : Option String)
    (s : Mk.FS) :
    (Mk.makeCleanState s).buildDirExists = false ∧
    (Mk.makeCleanState s).binary = none ∧
    (Mk.makeCleanState s).srcFiles = s.srcFiles ∧
    (Mk.makeRunState env f s).srcFiles = s.srcFiles ∧
    (Mk.makeBuildState env f s).srcFiles = s.srcFiles := by
  refine ⟨rfl, rfl, rfl, ?_, ?_⟩ <;>
    · cases f with
      | none => rfl
      | some g =>
        simp only [Mk.makeRunState, Mk.makeBuildState, Mk.applyCompile]
        split <;> rfl

/-- C10: both `make run` and `make build` write the compiled binary to
the same fixed path `build/a.out` regardless of FILE, so after any
successful build the unique binary is the one from the most recent
compilation, and building a second file silently overwrites the binary
of the first. -/
theorem build_binary_path_fixed (env : Mk.Env) (f g : String) (s : Mk.FS)
    (hf : env.compileStatus f = 0) (hg : env.compileStatus g = 0) :
    Mk.binaryPath = "build/a.out" ∧
    (Mk.makeBuildState env (some f) s).binary = some f ∧
    (Mk.makeRunState env (some f) s).binary = some f ∧
    (Mk.makeBuildState env (some g)
      (Mk.makeBuildState env (some f) s)).binary = some g := by
  refine ⟨rfl, ?_, ?_, ?_⟩ <;>
    simp [Mk.makeBuildState, Mk.makeRunState, Mk.applyCompile, hf, hg]

/-- C10 witness: two successive successful builds in a concrete
environment, starting from the empty file system. -/
theorem build_binary_path_fixed_witness :
    Mk.binaryPath = "build/a.out" ∧
    (Mk.makeBuildState envOK (some "a.cpp")
      { buildDirExists := false, binary := none, srcFiles := [] }).binary =
      some "a.cpp" ∧
    (Mk.makeRunState envOK (some "a.cpp")
      { buildDirExists := false, binary := none, srcFiles := [] }).binary =
      some "a.cpp" ∧
    (Mk.makeBuildState envOK (some "b.cpp")
      (Mk.makeBuildState envOK (some "a.cpp")
        { buildDirExists := false, binary := none, srcFiles := [] })).binary =
      some "b.cpp" :=
  build_binary_path_fixed envOK "a.cpp" "b.cpp"
    { buildDirExists := false, binary := none, srcFiles := [] } rfl rfl

/-- C8 counterexample: with no `.cpp` files under `src`, `make list`
prints only the header and exits 0 — the placeholder line
"  (no files yet)" claimed by the specification is not printed,
because the exit status of the pipeline is the status of `sort`,
which succeeds even on empty input. -/
theorem makeList_empty_counterexample :
    Mk.makeList [] = (["Source files:"], 0) ∧
    (Mk.makeList []).1.contains "  (no files yet)" = false := by
  constructor <;> decide

/-- C8 amended: `make list` prints the header and then exactly the
`.cpp` files found under `src`, sorted, and exits 0; when no such
files exist, nothing besides the header is printed — the placeholder
message is unreachable. -/
theorem makeList_enumerates_sorted (fs : List String) :
    (Mk.makeList fs).2 = 0 ∧
    ∃ t, (Mk.makeList fs).1 = "Source files:" :: t ∧
      (∀ p, p ∈ t ↔ p ∈ fs ∧ Mk.endsWithCpp p = true) ∧
      sortedBy Mk.strLe t = true ∧
      t.contains "  (no files yet)" = false := by
  refine ⟨rfl, Item01.sortBy Mk.strLe (fs.filter (fun p => Mk.endsWithCpp p)),
    rfl, ?_, sortBy_sorted Mk.strLe strLe_total _, ?_⟩
  · intro p
    rw [mem_sortBy, List.mem_filter]
  · rw [← Bool.not_eq_true, List.contains_eq_any_beq]
    intro hmem
    simp only [List.any_eq_true, beq_iff_eq] at hmem
    obtain ⟨p, hp, rfl⟩ := hmem
    rw [mem_sortBy, List.mem_filter] at hp
    have h2 : Mk.endsWithCpp "  (no files yet)" = true := hp.2
    exact absurd h2 (by decide)

/-- C8 amended witness: `make list` on a concrete set of files under
`src`, two of which match `*.cpp`. -/
theorem makeList_enumerates_sorted_witness :
    (Mk.makeList ["src/ch02/item07.cpp", "src/ch01/item01.cpp", "src/note.md"]).2 = 0 ∧
    ∃ t, (Mk.makeList
        ["src/ch02/item07.cpp", "src/ch01/item01.cpp", "src/note.md"]).1 =
        "Source files:" :: t ∧
      (∀ p, p ∈ t ↔
        p ∈ ["src/ch02/item07.cpp", "src/ch01/item01.cpp", "src/note.md"] ∧
        Mk.endsWithCpp p = true) ∧
      sortedBy Mk.strLe t = true ∧
      t.contains "  (no files yet)" = false :=
  makeList_enumerates_sorted
    ["src/ch02/item07.cpp", "src/ch01/item01.cpp", "src/note.md"]
